import Mathlib

/-! The CMongoSocket shims.

A shallow embedding of `Sources/CMongoSocket/shims.c`: the two C shims
`COpenKittenSSL_init` and `COpenKittenSSL_client_method`, each of which is a single
preprocessor conditional on `OPENSSL_API_COMPAT < 0x10100000L`.

The build configuration is the definition of the macro `OPENSSL_API_COMPAT`
(`none` when the macro is not defined).  A process is the pair of the TLS library
state and the log of library calls issued so far; every call a shim makes to the
TLS library is appended to the log and acts on the library state.
-/

namespace CMongoSocket

/-! ## The TLS library, as far as the shims touch it -/

/-- Role of a method table of the TLS library: usable by a client only, by a server only,
or by both (the generic tables). -/
inductive Role where
  | client
  | server
  | generic
  deriving DecidableEq

/-- Name family of a method constructor of the TLS library.  `TLS` and `SSLv23` are the two
names of the version-negotiating method (`TLS` is the name introduced in 1.1.0, `SSLv23` the
older name); the other families pin one protocol version. -/
inductive Family where
  | TLS
  | SSLv23
  | SSLv3
  | TLSv1
  | TLSv1_1
  | TLSv1_2
  deriving DecidableEq

/-- Modelled from the spec: the type `SSL_METHOD` of the TLS library (declared in the headers
of the library, which `shims.h` pulls in and which are not among the sources).  A method table
is identified by the constructor that yields it, `<family>_<role>method`, for instance
`TLS_client_method` is family `TLS` with role `client` and `TLSv1_2_method` is family
`TLSv1_2` with role `generic`. -/
structure SSL_METHOD where
  family : Family
  role : Role
  deriving DecidableEq

/-- A method is client-only when its table serves the client role and nothing else. -/
def SSL_METHOD.isClientOnly (m : SSL_METHOD) : Bool :=
  match m.role with
  | .client => true
  | .server => false
  | .generic => false

/-- A method is version-negotiated when its constructor belongs to one of the two negotiating
families. -/
def SSL_METHOD.isNegotiated (m : SSL_METHOD) : Bool :=
  match m.family with
  | .TLS => true
  | .SSLv23 => true
  | .SSLv3 => false
  | .TLSv1 => false
  | .TLSv1_1 => false
  | .TLSv1_2 => false

/-- A method is pinned when its constructor fixes a single protocol version. -/
def SSL_METHOD.isPinned (m : SSL_METHOD) : Bool :=
  match m.family with
  | .TLS => false
  | .SSLv23 => false
  | .SSLv3 => true
  | .TLSv1 => true
  | .TLSv1_1 => true
  | .TLSv1_2 => true

/-- Modelled from the spec: the negotiated client method that is appropriate at an API
compatibility level, that is the constructor name that exists there: the pre-1.1.0 name
`SSLv23_client_method` below `0x10100000`, and `TLS_client_method`, introduced in 1.1.0, from
`0x10100000` on. -/
def negotiatedClientMethodAt (level : Int) : SSL_METHOD :=
  if level < 0x10100000 then { family := .SSLv23, role := .client }
  else { family := .TLS, role := .client }

/-- Facilities of the global state of the TLS library that initialisation sets up. -/
inductive Facility where
  | sslAlgorithms
  | errorStrings
  | configuration
  | allAlgorithms
  deriving DecidableEq

/-- Global state of the TLS library: the set of facilities that are initialised. -/
abbrev LibState := Finset Facility

/-- Calls into the TLS library that occur in `shims.c`.  `OPENSSL_config` carries its
argument (`none` is `NULL`); `method m` is the call of the constructor of method `m`. -/
inductive LibCall where
  | SSL_library_init
  | SSL_load_error_strings
  | OPENSSL_config (file : Option String)
  | OPENSSL_add_all_algorithms_conf
  | OPENSSL_init_ssl
  | method (m : SSL_METHOD)
  deriving DecidableEq

/-- The initialisation calls are the five library calls that appear in `COpenKittenSSL_init`. -/
def LibCall.isInitCall : LibCall → Bool
  | .SSL_library_init => true
  | .SSL_load_error_strings => true
  | .OPENSSL_config _ => true
  | .OPENSSL_add_all_algorithms_conf => true
  | .OPENSSL_init_ssl => true
  | .method _ => false

/-- Modelled from the spec: the effect of each library call on the global state of the TLS
library (the library is not among the sources).  `SSL_library_init` sets up the SSL algorithms,
`SSL_load_error_strings` the error strings, `OPENSSL_config` the configuration,
`OPENSSL_add_all_algorithms_conf` the all-algorithms table together with the configuration,
`OPENSSL_init_ssl` the algorithm tables and the error strings; a method constructor only hands
out a static table and leaves the state alone. -/
def LibCall.effect : LibCall → LibState → LibState
  | .SSL_library_init, s => insert Facility.sslAlgorithms s
  | .SSL_load_error_strings, s => insert Facility.errorStrings s
  | .OPENSSL_config _, s => insert Facility.configuration s
  | .OPENSSL_add_all_algorithms_conf, s =>
      insert Facility.allAlgorithms (insert Facility.configuration s)
  | .OPENSSL_init_ssl, s =>
      insert Facility.sslAlgorithms (insert Facility.allAlgorithms (insert Facility.errorStrings s))
  | .method _, s => s

/-! ## Processes -/

/-- A process: the global state of the TLS library and the log of the library calls issued so
far, oldest first. -/
structure Process where
  lib : LibState
  log : List LibCall
  deriving DecidableEq

/-- A process in which nothing has been called yet and nothing is initialised. -/
def Process.fresh : Process :=
  { lib := ∅, log := [] }

/-- Issue one library call: it acts on the library state and is recorded in the log. -/
def Process.call (c : LibCall) (p : Process) : Process :=
  { lib := c.effect p.lib, log := p.log ++ [c] }

/-- The calls issued between two points of a run: what the later log adds to the earlier. -/
def issued (before after : Process) : List LibCall :=
  after.log.drop before.log.length

/-! ## The library functions named in `shims.c` -/

/-- Library function `SSL_library_init()`. -/
def SSL_library_init (p : Process) : Process :=
  p.call LibCall.SSL_library_init

/-- Library function `SSL_load_error_strings()`. -/
def SSL_load_error_strings (p : Process) : Process :=
  p.call LibCall.SSL_load_error_strings

/-- Library function `OPENSSL_config(file)`. -/
def OPENSSL_config (file : Option String) (p : Process) : Process :=
  p.call (LibCall.OPENSSL_config file)

/-- Library function `OPENSSL_add_all_algorithms_conf()`. -/
def OPENSSL_add_all_algorithms_conf (p : Process) : Process :=
  p.call LibCall.OPENSSL_add_all_algorithms_conf

/-- Library function `OPENSSL_init_ssl()`, called without arguments as in the source. -/
def OPENSSL_init_ssl (p : Process) : Process :=
  p.call LibCall.OPENSSL_init_ssl

/-- Library function `TLS_client_method()`: returns the table of that name. -/
def TLS_client_method (p : Process) : SSL_METHOD × Process :=
  ({ family := .TLS, role := .client },
    p.call (LibCall.method { family := .TLS, role := .client }))

/-- Library function `SSLv23_client_method()`: returns the table of that name. -/
def SSLv23_client_method (p : Process) : SSL_METHOD × Process :=
  ({ family := .SSLv23, role := .client },
    p.call (LibCall.method { family := .SSLv23, role := .client }))

/-! ## The preprocessor conditional -/

/-- Value of the identifier `OPENSSL_API_COMPAT` inside `#if`: the value of the macro when it
is defined, and 0 when it is not. -/
def ifValue : Option Int → Int
  | some v => v
  | none => 0

/-! ## The shims -/

/-- The shim `void COpenKittenSSL_init()`. -/
def COpenKittenSSL_init (compat : Option Int) (p : Process) : Process :=
  if ifValue compat < 0x10100000 then
    OPENSSL_add_all_algorithms_conf
      (OPENSSL_config none
        (SSL_load_error_strings
          (SSL_library_init p)))
  else
    OPENSSL_init_ssl p

/-- The shim `const SSL_METHOD *COpenKittenSSL_client_method()`. -/
def COpenKittenSSL_client_method (compat : Option Int) (p : Process) : SSL_METHOD × Process :=
  if ifValue compat < 0x10100000 then
    TLS_client_method p
  else
    SSLv23_client_method p

/-- The four calls of the legacy branch of `COpenKittenSSL_init`, in source order. -/
def legacyInitCalls : List LibCall :=
  [LibCall.SSL_library_init, LibCall.SSL_load_error_strings, LibCall.OPENSSL_config none,
    LibCall.OPENSSL_add_all_algorithms_conf]

/-- Both the algorithm tables and the error strings are initialised. -/
def tablesAndStringsReady (s : LibState) : Bool :=
  decide (Facility.sslAlgorithms ∈ s) && decide (Facility.allAlgorithms ∈ s)
    && decide (Facility.errorStrings ∈ s)

/-! ## Evaluation of the shims, branch by branch -/

theorem init_below (compat : Option Int) (p : Process) (h : ifValue compat < 0x10100000) :
    COpenKittenSSL_init compat p
      = OPENSSL_add_all_algorithms_conf
          (OPENSSL_config none (SSL_load_error_strings (SSL_library_init p))) := by
  simp [COpenKittenSSL_init, h]

theorem init_from (compat : Option Int) (p : Process) (h : ¬ ifValue compat < 0x10100000) :
    COpenKittenSSL_init compat p = OPENSSL_init_ssl p := by
  simp [COpenKittenSSL_init, h]

theorem client_method_below (compat : Option Int) (p : Process)
    (h : ifValue compat < 0x10100000) :
    COpenKittenSSL_client_method compat p = TLS_client_method p := by
  simp [COpenKittenSSL_client_method, h]

theorem client_method_from (compat : Option Int) (p : Process)
    (h : ¬ ifValue compat < 0x10100000) :
    COpenKittenSSL_client_method compat p = SSLv23_client_method p := by
  simp [COpenKittenSSL_client_method, h]

theorem issued_init (compat : Option Int) (p : Process) :
    issued p (COpenKittenSSL_init compat p)
      = if ifValue compat < 0x10100000 then legacyInitCalls else [LibCall.OPENSSL_init_ssl] := by
  by_cases h : ifValue compat < 0x10100000
  · simp [init_below, h, issued, legacyInitCalls, OPENSSL_add_all_algorithms_conf,
      OPENSSL_config, SSL_load_error_strings, SSL_library_init, Process.call]
  · simp [init_from, h, issued, OPENSSL_init_ssl, Process.call]

theorem log_init (compat : Option Int) (p : Process) :
    (COpenKittenSSL_init compat p).log
      = p.log ++ (if ifValue compat < 0x10100000 then legacyInitCalls
          else [LibCall.OPENSSL_init_ssl]) := by
  by_cases h : ifValue compat < 0x10100000
  · simp [init_below, h, legacyInitCalls, OPENSSL_add_all_algorithms_conf,
      OPENSSL_config, SSL_load_error_strings, SSL_library_init, Process.call]
  · simp [init_from, h, OPENSSL_init_ssl, Process.call]

theorem lib_init (compat : Option Int) (p : Process) :
    (COpenKittenSSL_init compat p).lib
      = if ifValue compat < 0x10100000 then
          insert Facility.allAlgorithms (insert Facility.configuration
            (insert Facility.configuration (insert Facility.errorStrings
              (insert Facility.sslAlgorithms p.lib))))
        else
          insert Facility.sslAlgorithms (insert Facility.allAlgorithms
            (insert Facility.errorStrings p.lib)) := by
  by_cases h : ifValue compat < 0x10100000
  · simp [init_below, h, OPENSSL_add_all_algorithms_conf, OPENSSL_config,
      SSL_load_error_strings, SSL_library_init, Process.call, LibCall.effect]
  · simp [init_from, h, OPENSSL_init_ssl, Process.call, LibCall.effect]

/-! ## The claims -/

/-- C1, evaluated on the code.  With `OPENSSL_API_COMPAT` not defined (level 0, below
`0x10100000`) the shim returns `TLS_client_method`, while the constructor that exists at that
level is `SSLv23_client_method`; at level `0x10100000` it returns `SSLv23_client_method`, while
the constructor appropriate there is `TLS_client_method`.  The two branches of the method
selection are the other way round from those of `COpenKittenSSL_init`. -/
theorem client_method_branches_swapped :
    (COpenKittenSSL_client_method none Process.fresh).1
        = { family := Family.TLS, role := Role.client }
      ∧ negotiatedClientMethodAt (ifValue none)
        = { family := Family.SSLv23, role := Role.client }
      ∧ (COpenKittenSSL_client_method (some 0x10100000) Process.fresh).1
        = { family := Family.SSLv23, role := Role.client }
      ∧ negotiatedClientMethodAt (ifValue (some 0x10100000))
        = { family := Family.TLS, role := Role.client }
      ∧ (COpenKittenSSL_client_method none Process.fresh).1
        ≠ negotiatedClientMethodAt (ifValue none) := by
  decide

/-- C2.  At every API compatibility level (the macro defined or not) and in every process, the
method returned by `COpenKittenSSL_client_method` is `TLS_client_method` or
`SSLv23_client_method`; it is client-only and version-negotiated, so its role is neither server
nor generic and it is not pinned to a single protocol version. -/
theorem client_method_client_only_negotiated (compat : Option Int) (p : Process) :
    ((COpenKittenSSL_client_method compat p).1 = { family := Family.TLS, role := Role.client }
        ∨ (COpenKittenSSL_client_method compat p).1
          = { family := Family.SSLv23, role := Role.client })
      ∧ (COpenKittenSSL_client_method compat p).1.isClientOnly = true
      ∧ (COpenKittenSSL_client_method compat p).1.isNegotiated = true
      ∧ (COpenKittenSSL_client_method compat p).1.role ≠ Role.server
      ∧ (COpenKittenSSL_client_method compat p).1.role ≠ Role.generic
      ∧ (COpenKittenSSL_client_method compat p).1.isPinned = false := by
  by_cases h : ifValue compat < 0x10100000
  · rw [client_method_below compat p h]
    simp [TLS_client_method, SSL_METHOD.isClientOnly, SSL_METHOD.isNegotiated,
      SSL_METHOD.isPinned]
  · rw [client_method_from compat p h]
    simp [SSLv23_client_method, SSL_METHOD.isClientOnly, SSL_METHOD.isNegotiated,
      SSL_METHOD.isPinned]

/-- C3 as stated fails.  With `OPENSSL_API_COMPAT` not defined, two consecutive invocations of
`COpenKittenSSL_init` from a fresh process issue eight library calls, one invocation issues
four, and the second invocation on its own issues four calls rather than none. -/
theorem init_twice_calls_ne_once :
    issued Process.fresh (COpenKittenSSL_init none (COpenKittenSSL_init none Process.fresh))
        ≠ issued Process.fresh (COpenKittenSSL_init none Process.fresh)
      ∧ (issued Process.fresh
          (COpenKittenSSL_init none (COpenKittenSSL_init none Process.fresh))).length = 8
      ∧ (issued Process.fresh (COpenKittenSSL_init none Process.fresh)).length = 4
      ∧ issued (COpenKittenSSL_init none Process.fresh)
          (COpenKittenSSL_init none (COpenKittenSSL_init none Process.fresh))
        = legacyInitCalls := by
  decide

/-- C3, amended.  `COpenKittenSSL_init` carries no latch: at every API compatibility level and
from every process, the second of two consecutive invocations issues exactly the calls the first
one issued, none of them dropped, so the two invocations together issue the sequence of one
invocation twice over. -/
theorem init_twice_calls_twice (compat : Option Int) (p : Process) :
    issued (COpenKittenSSL_init compat p) (COpenKittenSSL_init compat (COpenKittenSSL_init compat p))
        = issued p (COpenKittenSSL_init compat p)
      ∧ issued p (COpenKittenSSL_init compat (COpenKittenSSL_init compat p))
        = issued p (COpenKittenSSL_init compat p) ++ issued p (COpenKittenSSL_init compat p)
      ∧ issued p (COpenKittenSSL_init compat p) ≠ [] := by
  refine ⟨?_, ?_, ?_⟩
  · rw [issued_init, issued_init]
  · rw [issued_init]
    simp [issued, log_init]
  · rw [issued_init]
    by_cases h : ifValue compat < 0x10100000 <;> simp [h, legacyInitCalls]

/-- C4.  On the library state (the set of initialised facilities) `COpenKittenSSL_init` is
idempotent: at every API compatibility level and from every process, the library state after
two invocations equals the library state after one. -/
theorem init_idempotent_on_lib_state (compat : Option Int) (p : Process) :
    (COpenKittenSSL_init compat (COpenKittenSSL_init compat p)).lib
      = (COpenKittenSSL_init compat p).lib := by
  rw [lib_init compat (COpenKittenSSL_init compat p), lib_init compat p]
  by_cases h : ifValue compat < 0x10100000
  · simp only [h, if_true]
    ext x
    simp only [Finset.mem_insert]
    tauto
  · simp only [h, if_false]
    ext x
    simp only [Finset.mem_insert]
    tauto

/-- C5.  At every API compatibility level and from every process (whatever its library state),
after one invocation of `COpenKittenSSL_init` the algorithm tables (SSL algorithms and
all-algorithms table) and the error strings are initialised. -/
theorem init_sets_up_tables_and_strings (compat : Option Int) (p : Process) :
    Facility.sslAlgorithms ∈ (COpenKittenSSL_init compat p).lib
      ∧ Facility.allAlgorithms ∈ (COpenKittenSSL_init compat p).lib
      ∧ Facility.errorStrings ∈ (COpenKittenSSL_init compat p).lib
      ∧ tablesAndStringsReady (COpenKittenSSL_init compat p).lib = true := by
  rw [lib_init compat p]
  by_cases h : ifValue compat < 0x10100000 <;> simp [h, tablesAndStringsReady]

/-- C6.  One invocation of `COpenKittenSSL_init` issues exactly `SSL_library_init`,
`SSL_load_error_strings`, `OPENSSL_config(NULL)`, `OPENSSL_add_all_algorithms_conf`, in this
order, when the API compatibility level is strictly below `0x10100000`, and exactly
`OPENSSL_init_ssl` when it is `0x10100000` or above; the level `0x10100000` itself takes the
single-call branch; and the calls of the two branches are never mixed: either `OPENSSL_init_ssl`
is absent or none of the four legacy calls is present. -/
theorem init_call_sequence (compat : Option Int) (p : Process) :
    (ifValue compat < 0x10100000 →
        issued p (COpenKittenSSL_init compat p)
          = [LibCall.SSL_library_init, LibCall.SSL_load_error_strings,
              LibCall.OPENSSL_config none, LibCall.OPENSSL_add_all_algorithms_conf])
      ∧ (0x10100000 ≤ ifValue compat →
        issued p (COpenKittenSSL_init compat p) = [LibCall.OPENSSL_init_ssl])
      ∧ issued p (COpenKittenSSL_init (some 0x10100000) p) = [LibCall.OPENSSL_init_ssl]
      ∧ ((issued p (COpenKittenSSL_init compat p)).contains LibCall.OPENSSL_init_ssl = false
        ∨ (issued p (COpenKittenSSL_init compat p)).any
            (fun c => legacyInitCalls.contains c) = false) := by
  refine ⟨?_, ?_, ?_, ?_⟩
  · intro h
    rw [issued_init, if_pos h]
    rfl
  · intro h
    rw [issued_init, if_neg (not_lt.mpr h)]
  · rw [issued_init, if_neg (by decide)]
  · rw [issued_init]
    by_cases h : ifValue compat < 0x10100000
    · left
      rw [if_pos h]
      decide
    · right
      rw [if_neg h]
      decide

/-- C6, at level 0 (legacy branch) and at level `0x10100000` (single-call branch), from a fresh
process. -/
theorem init_call_sequence_witness :
    issued Process.fresh (COpenKittenSSL_init (some 0) Process.fresh)
        = [LibCall.SSL_library_init, LibCall.SSL_load_error_strings,
            LibCall.OPENSSL_config none, LibCall.OPENSSL_add_all_algorithms_conf]
      ∧ issued Process.fresh (COpenKittenSSL_init (some 0x10100000) Process.fresh)
        = [LibCall.OPENSSL_init_ssl] :=
  ⟨(init_call_sequence (some 0) Process.fresh).1 (by decide),
    (init_call_sequence (some 0x10100000) Process.fresh).2.1 (by decide)⟩

/-- C7.  With `OPENSSL_API_COMPAT` not defined both shims behave as at level 0:
`COpenKittenSSL_init` issues the four-call legacy sequence and `COpenKittenSSL_client_method`
returns `TLS_client_method`.  At every level, defined or not, both shims take the same side of
the test against `0x10100000`: the legacy sequence is issued if and only if the level is below
`0x10100000`, if and only if `TLS_client_method` is the method returned. -/
theorem same_side_of_version_test (compat : Option Int) (p : Process) :
    COpenKittenSSL_init none p = COpenKittenSSL_init (some 0) p
      ∧ COpenKittenSSL_client_method none p = COpenKittenSSL_client_method (some 0) p
      ∧ issued p (COpenKittenSSL_init none p) = legacyInitCalls
      ∧ (COpenKittenSSL_client_method none p).1 = { family := Family.TLS, role := Role.client }
      ∧ (issued p (COpenKittenSSL_init compat p) = legacyInitCalls
          ↔ ifValue compat < 0x10100000)
      ∧ ((COpenKittenSSL_client_method compat p).1 = { family := Family.TLS, role := Role.client }
          ↔ ifValue compat < 0x10100000)
      ∧ (issued p (COpenKittenSSL_init compat p) = legacyInitCalls
          ↔ (COpenKittenSSL_client_method compat p).1
            = { family := Family.TLS, role := Role.client }) := by
  have hinit : issued p (COpenKittenSSL_init compat p) = legacyInitCalls
      ↔ ifValue compat < 0x10100000 := by
    rw [issued_init]
    by_cases h : ifValue compat < 0x10100000
    · simp [h]
    · simp [h, legacyInitCalls]
  have hmeth : (COpenKittenSSL_client_method compat p).1
        = { family := Family.TLS, role := Role.client }
      ↔ ifValue compat < 0x10100000 := by
    by_cases h : ifValue compat < 0x10100000
    · simp [client_method_below compat p h, h, TLS_client_method]
    · simp [client_method_from compat p h, h, SSLv23_client_method]
  refine ⟨rfl, rfl, ?_, ?_, hinit, hmeth, hinit.trans hmeth.symm⟩
  · rw [issued_init, if_pos (by decide)]
  · rw [client_method_below none p (by decide)]
    rfl

/-- C8.  `COpenKittenSSL_client_method` is a pure selection: at every API compatibility level
and for every two processes it returns the same method, in particular the same in a fresh
process, where `COpenKittenSSL_init` was never called, as after an initialisation; the one call
it issues is the method constructor, so none of the initialisation calls; and it leaves the
library state as it found it. -/
theorem client_method_pure_selection (compat : Option Int) (p q : Process) :
    (COpenKittenSSL_client_method compat p).1 = (COpenKittenSSL_client_method compat q).1
      ∧ (COpenKittenSSL_client_method compat Process.fresh).1
        = (COpenKittenSSL_client_method compat (COpenKittenSSL_init compat q)).1
      ∧ issued p (COpenKittenSSL_client_method compat p).2
        = [LibCall.method (COpenKittenSSL_client_method compat p).1]
      ∧ (issued p (COpenKittenSSL_client_method compat p).2).filter LibCall.isInitCall = []
      ∧ (COpenKittenSSL_client_method compat p).2.lib = p.lib := by
  by_cases h : ifValue compat < 0x10100000
  · simp [client_method_below, h, TLS_client_method, issued, Process.call, LibCall.effect,
      LibCall.isInitCall]
  · simp [client_method_from, h, SSLv23_client_method, issued, Process.call, LibCall.effect,
      LibCall.isInitCall]

end CMongoSocket
